import Mathlib

/-
  Verification development for the StockAnalyzer repository
  (src/stock_analysis.py).

  Modelling conventions:
  * Python floats/ints are modelled as exact rationals (ℚ).  The repository
    only performs +, -, *, / and 2-decimal rounding on them, which is exact
    over ℚ; float round-to-nearest-even formatting is modelled by decimal
    round-half-even.
  * Python `None` is modelled by `Option.none` (or a dedicated constructor
    where a dict distinguishes an absent key from a key stored as None).
  * Python dicts built by straight-line assignment of distinct keys are
    modelled as association lists in insertion order.
-/

namespace StockAnalyzer

/-- A loosely typed Python value as it may reach `fmt_money`:
    None, a number, or a string. -/
inductive PyVal where
  | none
  | num (q : ℚ)
  | str (s : String)
deriving DecidableEq

/-- Absolute value of a rational, written with core operations so that the
    kernel can evaluate it (Python `abs`). -/
def pyAbs (q : ℚ) : ℚ := if q < 0 then -q else q

/-- Floor of a rational as an integer, via floor division of numerator by
    denominator. -/
def ratFloor (q : ℚ) : ℤ := Int.fdiv q.num (q.den : ℤ)

/-- Round-half-even of a rational to an integer: the rounding used by
    Python's `round` builtin and `format` (idealised to exact decimals).
    The fractional part `r` is compared with 1/2 via `2*r` against 1. -/
def rhe (q : ℚ) : ℤ :=
  let f : ℤ := ratFloor q
  let r : ℚ := q - (f : ℚ)
  if 2 * r < 1 then f
  else if 1 < 2 * r then f + 1
  else if f % 2 = 0 then f else f + 1

/-- Python `round(x, 2)`: two-decimal rounding, half to even. -/
def round2 (q : ℚ) : ℚ := (rhe (q * 100) : ℚ) / 100

/-- Powers of ten as rationals, computed over ℕ for kernel evaluation. -/
def pow10 (n : ℕ) : ℚ := ((10 ^ n : ℕ) : ℚ)

/-- Left-pad the fractional part of a 2-decimal rendering. -/
def twoDigits (n : ℕ) : String :=
  if n < 10 then "0" ++ toString n else toString n

/-- Python `f"{v:.2f}"`: fixed two-decimal rendering with sign. -/
def pyFixed2 (v : ℚ) : String :=
  let sgn := if v < 0 then "-" else ""
  let n : ℕ := (rhe (pyAbs v * 100)).toNat
  sgn ++ toString (n / 100) ++ "." ++ twoDigits (n % 100)

/-- Insert a comma every three digits, working on a reversed digit list. -/
def insertCommas : List Char → List Char
  | a :: b :: c :: d :: rest => a :: b :: c :: ',' :: insertCommas (d :: rest)
  | l => l

/-- Comma-group the decimal digits of a natural number (as in `f"{x:,}"`). -/
def commaGroup (n : ℕ) : String :=
  String.mk (insertCommas (toString n).toList.reverse).reverse

/-- Digits of a decimal string as a natural number (empty list is 0). -/
def digitsVal (cs : List Char) : ℕ :=
  cs.foldl (fun acc c => acc * 10 + (c.toNat - '0'.toNat)) 0

/-- Python `float(s)` on a plain decimal string: optional sign, integer
    part, optional fractional part; anything else fails (raises in Python,
    `Option.none` here). -/
def parseFloat (s : String) : Option ℚ :=
  let cs := s.toList
  let signAndRest : ℚ × List Char :=
    match cs with
    | '-' :: t => (-1, t)
    | '+' :: t => (1, t)
    | _ => (1, cs)
  let sign := signAndRest.1
  let rest := signAndRest.2
  let intPart := rest.takeWhile Char.isDigit
  let rem := rest.dropWhile Char.isDigit
  match rem with
  | [] =>
      if intPart.isEmpty then Option.none
      else some (sign * digitsVal intPart)
  | '.' :: frac =>
      if frac.all Char.isDigit ∧ (intPart ≠ [] ∨ frac ≠ []) then
        some (sign * (digitsVal intPart + (digitsVal frac : ℚ) / pow10 frac.length))
      else Option.none
  | _ => Option.none

/-- The numeric body of `fmt_money` after `x = float(x)` succeeded
    (src/stock_analysis.py lines 81-91). -/
def fmt_money_num (x : ℚ) : String :=
  let sign := if x < 0 then "-" else ""
  let a := pyAbs x
  if pow10 12 ≤ a then sign ++ "$" ++ pyFixed2 (a / pow10 12) ++ "T"
  else if pow10 9 ≤ a then sign ++ "$" ++ pyFixed2 (a / pow10 9) ++ "B"
  else if pow10 6 ≤ a then sign ++ "$" ++ pyFixed2 (a / pow10 6) ++ "M"
  else sign ++ "$" ++ commaGroup (rhe a).toNat

/-- `fmt_money` (src/stock_analysis.py lines 77-93): "N/A" on None, on a
    non-convertible string, and otherwise sign + "$" + unit-scaled value. -/
def fmt_money (x : PyVal) : String :=
  match x with
  | .none => "N/A"
  | .num q => fmt_money_num q
  | .str s =>
    match parseFloat s with
    | some q => fmt_money_num q
    | Option.none => "N/A"

/-- A field of the `info` dict (QuoteSnapshot): the key may be absent, be
    present with value None, or hold a number.  (The claims quantify over
    fields that are numeric, None or absent; with such inputs the Python
    function runs its straight-line body with no exception, so the
    catch-all `except` of calculate_key_metrics is not modelled.) -/
inductive QField where
  | absent
  | null
  | num (q : ℚ)
deriving DecidableEq

/-- Python `info.get(key, None)` restricted to its numeric content:
    a number when the key holds one, None otherwise. -/
def QField.toOpt : QField → Option ℚ
  | .num q => some q
  | _ => Option.none

/-- Python `if info.get(key):` — the value when it is truthy (a nonzero
    number); absent, None and 0 are all falsy. -/
def QField.truthy : QField → Option ℚ
  | .num q => if q = 0 then Option.none else some q
  | _ => Option.none

/-- The quote-snapshot fields read by `calculate_key_metrics`
    (src/stock_analysis.py lines 169-237). -/
structure QuoteSnapshot where
  currentPrice : QField
  marketCap : QField
  fiftyTwoWeekHigh : QField
  fiftyTwoWeekLow : QField
  trailingPE : QField
  forwardPE : QField
  priceToSalesTrailing12Months : QField
  dividendYield : QField
  payoutRatio : QField
  beta : QField
  returnOnEquity : QField
  revenueGrowth : QField
  earningsGrowth : QField
deriving DecidableEq

/-- The dict returned by `get_statement_metrics` (src/stock_analysis.py
    lines 31-39): all seven keys are always present, each holding a number
    or None.  Field names correspond to the keys "Revenue (TTM)",
    "Net Income (TTM)", "Operating Income (TTM)", "EBITDA (TTM)",
    "Cash From Ops (TTM)", "CapEx (TTM)", "Free Cash Flow (TTM)". -/
structure RawStatementFigures where
  revenue : Option ℚ
  netIncome : Option ℚ
  operatingIncome : Option ℚ
  ebitda : Option ℚ
  cashFromOps : Option ℚ
  capEx : Option ℚ
  freeCashFlow : Option ℚ
deriving DecidableEq

/-- A value stored in the metrics dict: most entries are strings, but
    Current Price is copied raw from the info dict (so it can be a number,
    or None when the key is present with value None), and the P/E, Forward
    P/E, P/S and Beta entries are raw rounded numbers when present. -/
inductive Cell where
  | str (s : String)
  | num (q : ℚ)
  | null
deriving DecidableEq

/-- Whether a metrics value is a string (the literal "N/A" included). -/
def Cell.isStr : Cell → Bool
  | .str _ => true
  | _ => false

/-- An Option ℚ viewed as the loosely typed argument passed to fmt_money. -/
def optToPy : Option ℚ → PyVal
  | some q => .num q
  | Option.none => .none

/-- A "value/100-style" percentage rendering: `f"{v:.2f}%"`. -/
def pctStr (v : ℚ) : String := pyFixed2 v ++ "%"

/-- `calculate_key_metrics` (src/stock_analysis.py lines 126-242).  The
    `hist` argument of the Python function is unused by its body and is
    omitted.  The dict is modelled as an association list in insertion
    order; all 21 keys are distinct.  Inputs restricted to
    numeric/None/absent fields make the body exception-free, so the
    enclosing try/except never truncates the dict. -/
def calculate_key_metrics (info : QuoteSnapshot) (sm : RawStatementFigures) :
    List (String × Cell) :=
  -- PROFITABILITY & MARGINS (lines 145-166): `if revenue and revenue != 0
  -- and <numerator> is not None` guards each division.
  let profitMargin : String :=
    match sm.revenue, sm.netIncome with
    | some r, some n => if r = 0 then "N/A" else pctStr (n / r * 100)
    | _, _ => "N/A"
  let operatingMargin : String :=
    match sm.revenue, sm.operatingIncome with
    | some r, some n => if r = 0 then "N/A" else pctStr (n / r * 100)
    | _, _ => "N/A"
  let ebitdaMargin : String :=
    match sm.revenue, sm.ebitda with
    | some r, some n => if r = 0 then "N/A" else pctStr (n / r * 100)
    | _, _ => "N/A"
  -- `x = info.get(key, None); if x is not None: f"{x*100:.2f}%"`.
  let roeStr : String :=
    match info.returnOnEquity.toOpt with
    | some q => pctStr (q * 100)
    | Option.none => "N/A"
  let revGrowthStr : String :=
    match info.revenueGrowth.toOpt with
    | some q => pctStr (q * 100)
    | Option.none => "N/A"
  let earnGrowthStr : String :=
    match info.earningsGrowth.toOpt with
    | some q => pctStr (q * 100)
    | Option.none => "N/A"
  -- line 195: `metrics["Current Price"] = info.get("currentPrice", "N/A")`
  -- copies the raw dict value (default "N/A" only when the key is absent).
  let currentPriceCell : Cell :=
    match info.currentPrice with
    | .absent => .str "N/A"
    | .null => .null
    | .num q => .num q
  -- lines 201-202: `f"${v:.2f}" if v else "N/A"` (truthiness: 0 is falsy).
  let highStr : String :=
    match info.fiftyTwoWeekHigh.truthy with
    | some q => "$" ++ pyFixed2 q
    | Option.none => "N/A"
  let lowStr : String :=
    match info.fiftyTwoWeekLow.truthy with
    | some q => "$" ++ pyFixed2 q
    | Option.none => "N/A"
  -- lines 205-210: `if current_price and fifty_two_week_high:`.
  let distanceStr : String :=
    match info.currentPrice.truthy, info.fiftyTwoWeekHigh.truthy with
    | some cp, some h => pctStr ((cp - h) / h * 100)
    | _, _ => "N/A"
  -- lines 215-217: `round(v, 2) if v else "N/A"` — a raw rounded number.
  let peCell : Cell :=
    match info.trailingPE.truthy with
    | some q => .num (round2 q)
    | Option.none => .str "N/A"
  let fpeCell : Cell :=
    match info.forwardPE.truthy with
    | some q => .num (round2 q)
    | Option.none => .str "N/A"
  let psCell : Cell :=
    match info.priceToSalesTrailing12Months.truthy with
    | some q => .num (round2 q)
    | Option.none => .str "N/A"
  let divYieldStr : String :=
    match info.dividendYield.toOpt with
    | some q => pctStr (q * 100)
    | Option.none => "N/A"
  let payoutStr : String :=
    match info.payoutRatio.toOpt with
    | some q => pctStr (q * 100)
    | Option.none => "N/A"
  -- line 237: `round(info.get("beta", 0), 2) if info.get("beta") else "N/A"`.
  let betaCell : Cell :=
    match info.beta.truthy with
    | some q => .num (round2 q)
    | Option.none => .str "N/A"
  [ ("Revenue (TTM)", .str (fmt_money (optToPy sm.revenue))),
    ("Net Income (TTM)", .str (fmt_money (optToPy sm.netIncome))),
    ("Operating Income (TTM)", .str (fmt_money (optToPy sm.operatingIncome))),
    ("EBITDA (TTM)", .str (fmt_money (optToPy sm.ebitda))),
    ("Profit Margin", .str profitMargin),
    ("Operating Margin", .str operatingMargin),
    ("EBITDA Margin", .str ebitdaMargin),
    ("Return on Equity (ROE)", .str roeStr),
    ("Revenue Growth (YoY)", .str revGrowthStr),
    ("Earnings Growth (YoY)", .str earnGrowthStr),
    ("Current Price", currentPriceCell),
    ("Market Cap", .str (fmt_money (optToPy info.marketCap.toOpt))),
    ("52-Week High", .str highStr),
    ("52-Week Low", .str lowStr),
    ("Distance from 52W High", .str distanceStr),
    ("P/E Ratio", peCell),
    ("Forward P/E", fpeCell),
    ("Price to Sales (P/S)", psCell),
    ("Dividend Yield", .str divYieldStr),
    ("Payout Ratio", .str payoutStr),
    ("Beta", betaCell) ]

/-- The section layout used by the renderer (src/stock_analysis.py lines
    459-493 and 759-779): section banner and the metric keys under it. -/
def sections : List (String × List String) :=
  [ ("INCOME STATEMENT",
      ["Revenue (TTM)", "Net Income (TTM)", "Operating Income (TTM)",
       "EBITDA (TTM)"]),
    ("PROFITABILITY & MARGINS",
      ["Profit Margin", "Operating Margin", "EBITDA Margin",
       "Return on Equity (ROE)"]),
    ("GROWTH", ["Revenue Growth (YoY)", "Earnings Growth (YoY)"]),
    ("VALUATION",
      ["Current Price", "Market Cap", "52-Week High", "52-Week Low",
       "Distance from 52W High", "P/E Ratio", "Forward P/E",
       "Price to Sales (P/S)"]),
    ("DIVIDENDS", ["Dividend Yield", "Payout Ratio"]),
    ("RISK", ["Beta"]) ]

/-- All metric labels in section order. -/
def metricLabels : List String := (sections.map Prod.snd).flatten

/-- A QuoteSnapshot with every field absent. -/
def emptyInfo : QuoteSnapshot :=
  ⟨.absent, .absent, .absent, .absent, .absent, .absent, .absent, .absent,
   .absent, .absent, .absent, .absent, .absent⟩

/-- A RawStatementFigures with every value None, which is exactly what
    `get_statement_metrics` returns when both statement tables fail. -/
def allNoneSM : RawStatementFigures :=
  ⟨Option.none, Option.none, Option.none, Option.none, Option.none,
   Option.none, Option.none⟩

/-- A pandas statement DataFrame as `get_statement_metrics` sees it:
    accessing the attribute may raise (caught by the surrounding
    try/except), the attribute may be None, or it is a table whose rows of
    the most recent column are an association list from row label to
    value.  An empty row list models an empty DataFrame (`fin.empty`). -/
inductive PyTable where
  | raise
  | null
  | table (rows : List (String × ℚ))
deriving DecidableEq

/-- The part of a yfinance Ticker object that `get_statement_metrics`
    touches: the `financials` and `cashflow` statement tables. -/
structure StockHandle where
  financials : PyTable
  cashflow : PyTable
deriving DecidableEq

/-- `if label in df.index: df.loc[label, col]` for the most recent column,
    modelled as association-list lookup. -/
def rowLookup (rows : List (String × ℚ)) (label : String) : Option ℚ :=
  List.lookup label rows

/-- `get_statement_metrics` (src/stock_analysis.py lines 26-74).  Each of
    the two try blocks is modelled by a match: an exception (`.raise`) or a
    None/empty table leaves the block's fields at their initialised None;
    otherwise each row present in the index contributes its value.  Free
    Cash Flow is derived inside the cash-flow block from the two operands
    just stored. -/
def get_statement_metrics (stock : StockHandle) : RawStatementFigures :=
  let income : Option ℚ × Option ℚ × Option ℚ × Option ℚ :=
    match stock.financials with
    | .table rows =>
        if rows.isEmpty then (Option.none, Option.none, Option.none, Option.none)
        else (rowLookup rows "Total Revenue", rowLookup rows "Net Income",
              rowLookup rows "Operating Income", rowLookup rows "EBITDA")
    | _ => (Option.none, Option.none, Option.none, Option.none)
  let cash : Option ℚ × Option ℚ :=
    match stock.cashflow with
    | .table rows =>
        if rows.isEmpty then (Option.none, Option.none)
        else (rowLookup rows "Total Cash From Operating Activities",
              rowLookup rows "Capital Expenditures")
    | _ => (Option.none, Option.none)
  let fcf : Option ℚ :=
    match cash.1, cash.2 with
    | some cfo, some capex => some (cfo + capex)
    | _, _ => Option.none
  { revenue := income.1
    netIncome := income.2.1
    operatingIncome := income.2.2.1
    ebitda := income.2.2.2
    cashFromOps := cash.1
    capEx := cash.2
    freeCashFlow := fcf }

/-- Example statement tables from the spec's Free-Cash-Flow test. -/
def fcfExampleStock : StockHandle :=
  { financials := .null
    cashflow := .table
      [("Total Cash From Operating Activities", 5000000000),
       ("Capital Expenditures", -1200000000)] }

/-- A rendered news entry: the dict appended to `news_data`
    (src/stock_analysis.py lines 269-274, 303-308, 317-322). -/
structure NewsItem where
  Title : String
  Publisher : String
  Link : String
  Published : String
deriving DecidableEq

/-- A raw item of the primary feed (`stock.news`): keys may be absent
    (then `.get` supplies the default). -/
structure RawNewsItem where
  title : Option String
  publisher : Option String
  link : Option String
  providerPublishTime : Option ℤ
deriving DecidableEq

/-- A parsed RSS `<item>` of the secondary source: each child tag may be
    missing. -/
structure RssItem where
  title : Option String
  link : Option String
  pubDate : Option String
deriving DecidableEq

/-- Index just past the last occurrence of `sep` starting position in `s`
    (both as char lists); None when `sep` does not occur. -/
def lastMatchPos (sep s : List Char) : Option ℕ :=
  ((List.range (s.length + 1)).filter (fun i => sep.isPrefixOf (s.drop i))).getLast?

/-- Python `s.rsplit(sep, 1)` restricted to the case `sep in s`: split at
    the last occurrence of `sep`. -/
def rsplit1 (sep s : String) : Option (String × String) :=
  match lastMatchPos sep.toList s.toList with
  | some i =>
      some (String.mk (s.toList.take i),
            String.mk (s.toList.drop (i + sep.toList.length)))
  | Option.none => Option.none

/-- Processing of one primary-feed item (src/stock_analysis.py lines
    254-274): defaults to "N/A", formats the publish time (the
    `datetime.fromtimestamp(..).strftime(..)` call is the parameter
    `fmtTime`, returning None when it raises, caught as 'Recent'), and
    skips items whose title, publisher and link are all "N/A". -/
def procPrimaryItem (fmtTime : ℤ → Option String) (item : RawNewsItem) :
    Option NewsItem :=
  let title := item.title.getD "N/A"
  let publisher := item.publisher.getD "N/A"
  let link := item.link.getD "N/A"
  let pub_time := item.providerPublishTime.getD 0
  let published := if 0 < pub_time then (fmtTime pub_time).getD "Recent" else "Recent"
  if title = "N/A" ∧ publisher = "N/A" ∧ link = "N/A" then Option.none
  else some ⟨title, publisher, link, published⟩

/-- Processing of one RSS item (src/stock_analysis.py lines 290-308):
    missing tags default, the title is rsplit once on " - " into title and
    publisher (publisher 'Google News' when the separator is absent), and
    the date is truncated to 16 characters. -/
def procRssItem (item : RssItem) : NewsItem :=
  let title := item.title.getD "N/A"
  let link := item.link.getD "N/A"
  let pub_date := item.pubDate.getD "Recent"
  let split : String × String :=
    match rsplit1 " - " title with
    | some p => p
    | Option.none => (title, "Google News")
  { Title := split.1
    Publisher := split.2
    Link := link
    Published :=
      if 16 < pub_date.toList.length then String.mk (pub_date.toList.take 16)
      else pub_date }

/-- The single placeholder entry appended when both sources produced
    nothing (src/stock_analysis.py lines 316-322). -/
def fallbackNews (ticker : String) : List NewsItem :=
  [{ Title := "Click to view " ++ ticker ++ " news on Yahoo Finance"
     Publisher := "Yahoo Finance"
     Link := "https://finance.yahoo.com/quote/" ++ ticker ++ "/news"
     Published := "N/A" }]

/-- `get_stock_news` (src/stock_analysis.py lines 244-324).  `primary` is
    the `stock.news` call: `.error` when it raises, otherwise the item
    list.  `secondary` is the Google-News RSS request: `.error` when the
    request raises, `.ok none` for a non-200 status, `.ok (some items)`
    for the parsed (up to 10) items.  Each source is tried in turn; its
    processed list is returned only when non-empty, and the placeholder
    closes the fall-through. -/
def get_stock_news (ticker : String) (fmtTime : ℤ → Option String)
    (primary : Except Unit (List RawNewsItem))
    (secondary : Except Unit (Option (List RssItem))) : List NewsItem :=
  let afterPrimary : Option (List NewsItem) :=
    match primary with
    | .ok news =>
        if 0 < news.length then
          let nd := (news.take 10).filterMap (procPrimaryItem fmtTime)
          if 0 < nd.length then some nd else Option.none
        else Option.none
    | .error _ => Option.none
  match afterPrimary with
  | some nd => nd
  | Option.none =>
    match secondary with
    | .ok (some items) =>
        let nd := (items.take 10).map procRssItem
        if 0 < nd.length then nd else fallbackNews ticker
    | _ => fallbackNews ticker

/-- Python `s.strip()` (whitespace strip) over the character list. -/
def pyStrip (s : String) : String :=
  String.mk ((s.toList.dropWhile Char.isWhitespace).reverse.dropWhile
    Char.isWhitespace).reverse

/-- Python `s.upper()` over the character list (ASCII letters suffice for
    ticker symbols). -/
def pyUpper (s : String) : String := String.mk (s.toList.map Char.toUpper)

/-- The ticker-collection loop of `compare_stocks` (src/stock_analysis.py
    lines 683-686): keep the cells that are non-None, non-empty, and not
    whitespace-only, stripped and uppercased. -/
def pickTickers (cells : List (Option String)) : List String :=
  cells.filterMap (fun c =>
    match c with
    | some t => if t ≠ "" ∧ pyStrip t ≠ "" then some (pyUpper (pyStrip t)) else Option.none
    | Option.none => Option.none)

/-- A successful acquisition for one ticker in comparison mode: the quote
    snapshot and the statement handle.  `get_stock_data` failure, a None
    history and an empty history are all collapsed into `Option.none` of
    the `fetch` parameter (the guard on src/stock_analysis.py line 701). -/
structure FetchOk where
  info : QuoteSnapshot
  stmts : StockHandle

/-- The sequential per-ticker acquisition loop of `compare_stocks` (lines
    697-712): the first ticker whose fetch fails aborts the loop and is
    reported; otherwise all results are collected in order. -/
def fetchAll (fetch : String → Option FetchOk) : List String → Except String (List FetchOk)
  | [] => .ok []
  | t :: ts =>
    match fetch t with
    | some d =>
        match fetchAll fetch ts with
        | .ok ds => .ok (d :: ds)
        | .error e => .error e
    | Option.none => .error t

/-- One row of the rendered comparison table: the metric label and one
    cell per ticker (lines 793-810; `metrics.get(metric_name, 'N/A')`). -/
def compareRow (datas : List FetchOk) (m : String) : String × List Cell :=
  (m, datas.map (fun d =>
    (List.lookup m (calculate_key_metrics d.info (get_statement_metrics d.stmts))).getD
      (Cell.str "N/A")))

/-- The metric rows of the comparison table, in the fixed section order
    (lines 759-811).  The per-ticker columns are positional: the Python
    dict `stock_data` is keyed by ticker, and `fetch` is a function, so
    duplicate tickers receive identical columns either way. -/
def buildCompareTable (datas : List FetchOk) : List (String × List Cell) :=
  metricLabels.map (compareRow datas)

/-- `compare_stocks` (src/stock_analysis.py lines 657-931), reduced to its
    pure decision structure: the final content of the status cell B7 and
    the comparison table if one was rendered.  Chart drawing and cell
    formatting are presentation sinks; the period cell only parametrises
    `fetch`. -/
def compare_stocks (b2 b3 b4 : Option String) (fetch : String → Option FetchOk) :
    String × Option (List (String × List Cell)) :=
  let tickers := pickTickers [b2, b3, b4]
  if tickers.length < 2 then ("Please enter at least 2 tickers", Option.none)
  else
    match fetchAll fetch tickers with
    | .error t => ("Error loading " ++ t ++ " - no data returned", Option.none)
    | .ok datas => ("âœ“ Comparison complete!", some (buildCompareTable datas))

/-- A QuoteSnapshot whose marketCap, fiftyTwoWeekHigh and beta are all 0
    (other fields absent): probes the zero-vs-absent behaviour. -/
def zeroQuoteInfo : QuoteSnapshot :=
  { emptyInfo with marketCap := .num 0, fiftyTwoWeekHigh := .num 0, beta := .num 0 }

/-- Statement figures whose four income-statement values are all 0. -/
def zeroFigsSM : RawStatementFigures :=
  ⟨some 0, some 0, some 0, some 0, Option.none, Option.none, Option.none⟩

/-- A QuoteSnapshot whose only present field is a current price of 100. -/
def cpInfo : QuoteSnapshot := { emptyInfo with currentPrice := .num 100 }

example : fmt_money (.num 3800000000) = "$3.80B" := by with_unfolding_all rfl
example : fmt_money (.num 0) = "$0" := by with_unfolding_all rfl
example : fmt_money (.num (-1234567)) = "-$1.23M" := by with_unfolding_all rfl
example : fmt_money (.num 999999) = "$999,999" := by with_unfolding_all rfl
example : fmt_money (.str "abc") = "N/A" := by with_unfolding_all rfl
example : fmt_money (.str "12.5") = "$12" := by with_unfolding_all rfl
example : fmt_money PyVal.none = "N/A" := by with_unfolding_all rfl

example : (calculate_key_metrics emptyInfo allNoneSM).map Prod.fst = metricLabels := by
  with_unfolding_all rfl

example : calculate_key_metrics emptyInfo allNoneSM
    = metricLabels.map (fun l => (l, Cell.str "N/A")) := by
  with_unfolding_all rfl

example : (get_statement_metrics fcfExampleStock).freeCashFlow
    = some 3800000000 := by with_unfolding_all rfl

example : get_statement_metrics ⟨.raise, .raise⟩ = allNoneSM := by
  with_unfolding_all rfl

example : get_stock_news "TSLA" (fun _ => Option.none) (.error ()) (.error ())
    = fallbackNews "TSLA" := by with_unfolding_all rfl

example : get_stock_news "A" (fun _ => Option.none)
    (.ok [⟨some "T - P", Option.none, some "l", some 5⟩]) (.error ())
    = [⟨"T - P", "N/A", "l", "Recent"⟩] := by with_unfolding_all rfl

example : get_stock_news "A" (fun _ => Option.none) (.ok [])
    (.ok (some [⟨some "Big news - CNN", some "x", Option.none⟩]))
    = [⟨"Big news", "CNN", "x", "Recent"⟩] := by with_unfolding_all rfl

example : compare_stocks (some "AAPL") Option.none Option.none (fun _ => Option.none)
    = ("Please enter at least 2 tickers", Option.none) := by with_unfolding_all rfl

example : compare_stocks (some " aapl ") (some "msft") Option.none (fun _ => Option.none)
    = ("Error loading AAPL - no data returned", Option.none) := by with_unfolding_all rfl

example : (compare_stocks (some "A") (some "B") Option.none
    (fun _ => some ⟨emptyInfo, ⟨.raise, .raise⟩⟩)).1 = "âœ“ Comparison complete!" := by
  with_unfolding_all rfl

/-- C1: for every quote snapshot and statement-figure input, the metrics
    table carries exactly the fixed label list in the fixed section order
    (Income Statement, Profitability & Margins, Growth, Valuation,
    Dividends, Risk); in particular, with no quote field present and every
    statement figure None, the table is the full label list with every
    value "N/A". -/
theorem metrics_table_labels_complete :
    (∀ info sm, (calculate_key_metrics info sm).map Prod.fst = metricLabels) ∧
    calculate_key_metrics emptyInfo allNoneSM
      = metricLabels.map (fun l => (l, Cell.str "N/A")) :=
  ⟨fun _ _ => rfl, by with_unfolding_all rfl⟩

/-- C2: fmt_money returns "N/A" on None and on a non-numeric string, and
    on a number renders the sign separately from the magnitude, prefixes
    "$", and picks the unit by magnitude: ≥ 1e12 with suffix "T",
    [1e9, 1e12) with "B", [1e6, 1e9) with "M", below 1e6 as comma-grouped
    integer dollars, the scaled values with two decimals. -/
theorem fmt_money_spec :
    fmt_money PyVal.none = "N/A" ∧ fmt_money (PyVal.str "abc") = "N/A" ∧
    (∀ s : String, parseFloat s = Option.none → fmt_money (.str s) = "N/A") ∧
    ∀ x : ℚ, fmt_money (.num x) =
      (if x < 0 then "-" else "") ++ "$" ++
      (if pow10 12 ≤ pyAbs x then pyFixed2 (pyAbs x / pow10 12) ++ "T"
       else if pow10 9 ≤ pyAbs x then pyFixed2 (pyAbs x / pow10 9) ++ "B"
       else if pow10 6 ≤ pyAbs x then pyFixed2 (pyAbs x / pow10 6) ++ "M"
       else commaGroup (rhe (pyAbs x)).toNat) := by
  refine ⟨rfl, by with_unfolding_all rfl,
    fun s hs => by simp only [fmt_money, hs], fun x => ?_⟩
  simp only [fmt_money, fmt_money_num]
  split_ifs <;> rfl

/-- C2 witness: the string "abc" does not parse as a float, and fmt_money
    maps it to "N/A". -/
theorem fmt_money_spec_witness :
    fmt_money (.str "abc") = "N/A" :=
  fmt_money_spec.2.2.1 "abc" (by with_unfolding_all rfl)

/-- C3: each margin metric is "N/A" whenever Revenue is None or 0 or its
    numerator is None, and otherwise equals numerator/Revenue × 100
    rendered with two decimals and a trailing "%"; the characterisation is
    a total function of the inputs, so the division never raises. -/
theorem margin_metrics_spec : ∀ info sm,
    List.lookup "Profit Margin" (calculate_key_metrics info sm) =
      some (Cell.str (match sm.revenue, sm.netIncome with
        | some r, some n => if r = 0 then "N/A" else pctStr (n / r * 100)
        | _, _ => "N/A")) ∧
    List.lookup "Operating Margin" (calculate_key_metrics info sm) =
      some (Cell.str (match sm.revenue, sm.operatingIncome with
        | some r, some n => if r = 0 then "N/A" else pctStr (n / r * 100)
        | _, _ => "N/A")) ∧
    List.lookup "EBITDA Margin" (calculate_key_metrics info sm) =
      some (Cell.str (match sm.revenue, sm.ebitda with
        | some r, some n => if r = 0 then "N/A" else pctStr (n / r * 100)
        | _, _ => "N/A")) :=
  fun _ _ => ⟨rfl, rfl, rfl⟩

/-- C4: the extractor's Free Cash Flow is exactly the sum of its
    CashFromOps and CapEx outputs when both are present and None
    otherwise; on the spec's example (CashFromOps 5e9, CapEx -1.2e9) it is
    3.8e9, rendered "$3.80B" by fmt_money. -/
theorem free_cash_flow_spec :
    (∀ stock : StockHandle,
      (get_statement_metrics stock).freeCashFlow =
        match (get_statement_metrics stock).cashFromOps,
              (get_statement_metrics stock).capEx with
        | some cfo, some capex => some (cfo + capex)
        | _, _ => Option.none) ∧
    (get_statement_metrics fcfExampleStock).freeCashFlow = some 3800000000 ∧
    fmt_money (.num 3800000000) = "$3.80B" :=
  ⟨fun _ => rfl, by with_unfolding_all rfl, by with_unfolding_all rfl⟩

/-- C10: fmt_money maps 0 to "$0", not "N/A", so a zero Revenue, Net
    Income, Operating Income, EBITDA or Market Cap is rendered as a dollar
    string — in contrast to the truthiness-checked Beta and 52-Week High,
    where 0 collapses to "N/A". -/
theorem fmt_money_zero_dollar :
    fmt_money (.num 0) = "$0" ∧
    List.lookup "Revenue (TTM)" (calculate_key_metrics zeroQuoteInfo zeroFigsSM)
      = some (.str "$0") ∧
    List.lookup "Net Income (TTM)" (calculate_key_metrics zeroQuoteInfo zeroFigsSM)
      = some (.str "$0") ∧
    List.lookup "Operating Income (TTM)" (calculate_key_metrics zeroQuoteInfo zeroFigsSM)
      = some (.str "$0") ∧
    List.lookup "EBITDA (TTM)" (calculate_key_metrics zeroQuoteInfo zeroFigsSM)
      = some (.str "$0") ∧
    List.lookup "Market Cap" (calculate_key_metrics zeroQuoteInfo zeroFigsSM)
      = some (.str "$0") ∧
    List.lookup "Beta" (calculate_key_metrics zeroQuoteInfo zeroFigsSM)
      = some (.str "N/A") ∧
    List.lookup "52-Week High" (calculate_key_metrics zeroQuoteInfo zeroFigsSM)
      = some (.str "N/A") := by
  refine ⟨?_, ?_, ?_, ?_, ?_, ?_, ?_, ?_⟩ <;> with_unfolding_all rfl

/-- C5 counterexample: with a current price of 100 present in the quote
    snapshot, the "Current Price" entry of the metrics table holds the raw
    number 100, not a formatted string — refuting "every value is either a
    formatted string or the literal N/A, never a raw number". -/
theorem current_price_raw_counterexample :
    List.lookup "Current Price" (calculate_key_metrics cpInfo allNoneSM)
      = some (Cell.num 100) ∧ (Cell.num 100).isStr = false := by
  exact ⟨by with_unfolding_all rfl, rfl⟩

/-- C5 amended: every metrics-table value outside the five raw entries
    (Current Price, P/E Ratio, Forward P/E, Price to Sales (P/S), Beta) is
    a string — a formatted rendering or the literal "N/A" — for every
    input; those five are copied/rounded raw numbers when their field is
    present and truthy. -/
theorem metrics_values_strings_except_raw :
    ∀ info sm, ∀ p ∈ calculate_key_metrics info sm,
      p.1 ∉ (["Current Price", "P/E Ratio", "Forward P/E",
              "Price to Sales (P/S)", "Beta"] : List String) →
      p.2.isStr = true := by
  intro info sm p hmem hnot
  simp only [calculate_key_metrics] at hmem
  fin_cases hmem <;>
    first
      | rfl
      | exact absurd (by simp) hnot

/-- C5 amended, witness: the Revenue entry of the all-absent input is a
    string. -/
theorem metrics_values_strings_except_raw_witness :
    (("Revenue (TTM)", Cell.str "N/A") : String × Cell).2.isStr = true :=
  metrics_values_strings_except_raw emptyInfo allNoneSM
    ("Revenue (TTM)", Cell.str "N/A") (by with_unfolding_all decide) (by decide)

/-- C6: each extractor output field depends only on its own lookup step —
    a missing table, empty table or missing row leaves exactly the fields
    whose steps failed at None, and any field whose own table and row are
    present receives its value; the function is total, so no exception
    escapes it. -/
theorem statement_extractor_field_isolation : ∀ stock : StockHandle,
    (get_statement_metrics stock).revenue =
      (match stock.financials with
       | .table rows => if rows.isEmpty then Option.none
                        else rowLookup rows "Total Revenue"
       | _ => Option.none) ∧
    (get_statement_metrics stock).netIncome =
      (match stock.financials with
       | .table rows => if rows.isEmpty then Option.none
                        else rowLookup rows "Net Income"
       | _ => Option.none) ∧
    (get_statement_metrics stock).operatingIncome =
      (match stock.financials with
       | .table rows => if rows.isEmpty then Option.none
                        else rowLookup rows "Operating Income"
       | _ => Option.none) ∧
    (get_statement_metrics stock).ebitda =
      (match stock.financials with
       | .table rows => if rows.isEmpty then Option.none
                        else rowLookup rows "EBITDA"
       | _ => Option.none) ∧
    (get_statement_metrics stock).cashFromOps =
      (match stock.cashflow with
       | .table rows => if rows.isEmpty then Option.none
                        else rowLookup rows "Total Cash From Operating Activities"
       | _ => Option.none) ∧
    (get_statement_metrics stock).capEx =
      (match stock.cashflow with
       | .table rows => if rows.isEmpty then Option.none
                        else rowLookup rows "Capital Expenditures"
       | _ => Option.none) := by
  intro stock
  obtain ⟨fin, cf⟩ := stock
  cases fin <;> cases cf <;>
    refine ⟨?_, ?_, ?_, ?_, ?_, ?_⟩ <;>
    simp only [get_statement_metrics] <;>
    split_ifs <;> rfl

/-- C7: a beta of 0 renders the Beta metric as "N/A", and a 52-week high
    of 0 renders the 52-Week High metric as "N/A" — for these fields the
    value 0 behaves exactly like an absent field. -/
theorem beta_high_zero_na : ∀ info sm,
    ((info.beta = QField.num 0 ∨ info.beta = QField.absent) →
      List.lookup "Beta" (calculate_key_metrics info sm) = some (Cell.str "N/A")) ∧
    ((info.fiftyTwoWeekHigh = QField.num 0 ∨ info.fiftyTwoWeekHigh = QField.absent) →
      List.lookup "52-Week High" (calculate_key_metrics info sm)
        = some (Cell.str "N/A")) := by
  intro info sm
  constructor <;> rintro (h | h) <;>
    simp [calculate_key_metrics, QField.truthy, h, List.lookup]

/-- C7 witness: with beta and 52-week high both 0, both metrics read
    "N/A". -/
theorem beta_high_zero_na_witness :
    List.lookup "Beta" (calculate_key_metrics zeroQuoteInfo allNoneSM)
        = some (Cell.str "N/A") ∧
    List.lookup "52-Week High" (calculate_key_metrics zeroQuoteInfo allNoneSM)
        = some (Cell.str "N/A") :=
  ⟨(beta_high_zero_na zeroQuoteInfo allNoneSM).1 (Or.inl rfl),
   (beta_high_zero_na zeroQuoteInfo allNoneSM).2 (Or.inl rfl)⟩

/-- If the acquisition loop aborts with ticker `e`, then `e` is one of the
    requested tickers and its fetch failed. -/
lemma fetchAll_error_mem {fetch : String → Option FetchOk} :
    ∀ {ts : List String} {e : String}, fetchAll fetch ts = .error e →
      e ∈ ts ∧ fetch e = Option.none := by
  intro ts
  induction ts with
  | nil => intro e h; simp [fetchAll] at h
  | cons t ts ih =>
      intro e h
      simp only [fetchAll] at h
      cases hf : fetch t with
      | none =>
          rw [hf] at h
          cases h
          exact ⟨List.mem_cons_self .., hf⟩
      | some d =>
          rw [hf] at h
          cases hrec : fetchAll fetch ts with
          | ok ds => rw [hrec] at h; cases h
          | error e2 =>
              rw [hrec] at h
              cases h
              obtain ⟨hm, hn⟩ := ih hrec
              exact ⟨List.mem_cons_of_mem t hm, hn⟩

/-- If the acquisition loop completes, every requested ticker's fetch
    succeeded. -/
lemma fetchAll_ok_forall {fetch : String → Option FetchOk} :
    ∀ {ts : List String} {ds : List FetchOk}, fetchAll fetch ts = .ok ds →
      ∀ t ∈ ts, fetch t ≠ Option.none := by
  intro ts
  induction ts with
  | nil => intro ds _ t ht; cases ht
  | cons a ts ih =>
      intro ds h t ht
      simp only [fetchAll] at h
      cases hf : fetch a with
      | none => rw [hf] at h; cases h
      | some d =>
          rw [hf] at h
          cases hrec : fetchAll fetch ts with
          | error e => rw [hrec] at h; cases h
          | ok ds2 =>
              rcases List.mem_cons.mp ht with rfl | hmem
              · simp [hf]
              · exact ih hrec t hmem

/-- C8: in comparison mode, fewer than 2 collected tickers ends the run
    with the user-facing status "Please enter at least 2 tickers" and no
    table; and whenever any requested ticker's acquisition fails, no table
    is rendered — with at least 2 tickers the status cell then reports
    "Error loading T - no data returned" for a failing ticker T.  No
    partial comparison table exists in either case. -/
theorem compare_aborts_spec : ∀ b2 b3 b4 fetch,
    (( pickTickers [b2, b3, b4]).length < 2 →
      compare_stocks b2 b3 b4 fetch = ("Please enter at least 2 tickers", Option.none)) ∧
    ((∃ t ∈ pickTickers [b2, b3, b4], fetch t = Option.none) →
      (compare_stocks b2 b3 b4 fetch).2 = Option.none) ∧
    (2 ≤ (pickTickers [b2, b3, b4]).length →
      (∃ t ∈ pickTickers [b2, b3, b4], fetch t = Option.none) →
      ∃ t ∈ pickTickers [b2, b3, b4], fetch t = Option.none ∧
        (compare_stocks b2 b3 b4 fetch).1
          = "Error loading " ++ t ++ " - no data returned") := by
  intro b2 b3 b4 fetch
  refine ⟨fun h => by simp [compare_stocks, h], ?_, ?_⟩
  · rintro ⟨t, ht, hf⟩
    by_cases hl : (pickTickers [b2, b3, b4]).length < 2
    · simp [compare_stocks, hl]
    · cases hfa : fetchAll fetch (pickTickers [b2, b3, b4]) with
      | error e => simp [compare_stocks, hl, hfa]
      | ok ds => exact absurd hf (fetchAll_ok_forall hfa t ht)
  · rintro hlen ⟨t, ht, hf⟩
    cases hfa : fetchAll fetch (pickTickers [b2, b3, b4]) with
    | error e =>
        obtain ⟨hm, hn⟩ := fetchAll_error_mem hfa
        exact ⟨e, hm, hn, by simp [compare_stocks, Nat.not_lt.mpr hlen, hfa]⟩
    | ok ds => exact absurd hf (fetchAll_ok_forall hfa t ht)

/-- C8 witness: one valid ticker yields the user error and no table; two
    tickers with a failing fetch yield no table and the loading error. -/
theorem compare_aborts_witness :
    compare_stocks (some "AAPL") Option.none Option.none (fun _ => Option.none)
        = ("Please enter at least 2 tickers", Option.none) ∧
    (compare_stocks (some "AAPL") (some "MSFT") Option.none
        (fun _ => Option.none)).2 = Option.none :=
  ⟨(compare_aborts_spec (some "AAPL") Option.none Option.none
      (fun _ => Option.none)).1 (by with_unfolding_all decide),
   (compare_aborts_spec (some "AAPL") (some "MSFT") Option.none
      (fun _ => Option.none)).2.1
      ⟨"AAPL", by with_unfolding_all decide, rfl⟩⟩

/-- C9: for every input, get_stock_news returns between 1 and 10 items
    (each a complete NewsItem record with Title, Publisher, Link and
    Published); and when both backing sources yield nothing the result is
    exactly the single placeholder whose link is the generic finance-portal
    news URL for the ticker — never an empty list, and totally, never an
    error. -/
theorem news_nonempty_bounded : ∀ ticker fmtTime primary secondary,
    1 ≤ (get_stock_news ticker fmtTime primary secondary).length ∧
    (get_stock_news ticker fmtTime primary secondary).length ≤ 10 ∧
    ((primary = .error () ∨ primary = .ok []) →
      (secondary = .error () ∨ secondary = .ok Option.none ∨
        secondary = .ok (some [])) →
      get_stock_news ticker fmtTime primary secondary =
        [{ Title := "Click to view " ++ ticker ++ " news on Yahoo Finance"
           Publisher := "Yahoo Finance"
           Link := "https://finance.yahoo.com/quote/" ++ ticker ++ "/news"
           Published := "N/A" }]) := by
  intro ticker fmtTime primary secondary
  have hrss : ∀ items : List RssItem,
      1 ≤ (if 0 < ((items.take 10).map procRssItem).length then
            (items.take 10).map procRssItem else fallbackNews ticker).length ∧
      (if 0 < ((items.take 10).map procRssItem).length then
            (items.take 10).map procRssItem else fallbackNews ticker).length ≤ 10 := by
    intro items
    by_cases hlen : 0 < ((items.take 10).map procRssItem).length
    · rw [if_pos hlen]
      refine ⟨hlen, ?_⟩
      rw [List.length_map, List.length_take]
      exact min_le_left ..
    · rw [if_neg hlen]
      exact ⟨Nat.le_refl 1, by simp [fallbackNews]⟩
  have hsec : 1 ≤ (match secondary with
      | .ok (some items) =>
          if 0 < ((items.take 10).map procRssItem).length then
            (items.take 10).map procRssItem
          else fallbackNews ticker
      | _ => fallbackNews ticker).length ∧
      (match secondary with
      | .ok (some items) =>
          if 0 < ((items.take 10).map procRssItem).length then
            (items.take 10).map procRssItem
          else fallbackNews ticker
      | _ => fallbackNews ticker).length ≤ 10 := by
    rcases secondary with e | o
    · exact ⟨Nat.le_refl 1, by simp [fallbackNews]⟩
    · rcases o with _ | items
      · exact ⟨Nat.le_refl 1, by simp [fallbackNews]⟩
      · exact hrss items
  have hbounds : 1 ≤ (get_stock_news ticker fmtTime primary secondary).length ∧
      (get_stock_news ticker fmtTime primary secondary).length ≤ 10 := by
    rcases primary with e | news
    · exact hsec
    · by_cases h0 : 0 < news.length
      · by_cases hnd : 0 < ((news.take 10).filterMap (procPrimaryItem fmtTime)).length
        · have hres : get_stock_news ticker fmtTime (.ok news) secondary
              = (news.take 10).filterMap (procPrimaryItem fmtTime) := by
            simp only [get_stock_news]
            rw [if_pos h0, if_pos hnd]
          rw [hres]
          refine ⟨hnd, Nat.le_trans (List.length_filterMap_le ..) ?_⟩
          rw [List.length_take]
          exact min_le_left ..
        · have hres : get_stock_news ticker fmtTime (.ok news) secondary
              = get_stock_news ticker fmtTime (.error ()) secondary := by
            simp only [get_stock_news]
            rw [if_pos h0, if_neg hnd]
          rw [hres]
          exact hsec
      · have hres : get_stock_news ticker fmtTime (.ok news) secondary
            = get_stock_news ticker fmtTime (.error ()) secondary := by
          simp only [get_stock_news]
          rw [if_neg h0]
        rw [hres]
        exact hsec
  refine ⟨hbounds.1, hbounds.2, ?_⟩
  rintro (rfl | rfl) (rfl | rfl | rfl) <;> rfl

/-- C9 witness: with the primary feed raising and the RSS request raising,
    the result is the single Yahoo-Finance placeholder for the ticker. -/
theorem news_nonempty_bounded_witness :
    get_stock_news "TSLA" (fun _ => Option.none) (.error ()) (.error ())
      = [{ Title := "Click to view TSLA news on Yahoo Finance"
           Publisher := "Yahoo Finance"
           Link := "https://finance.yahoo.com/quote/TSLA/news"
           Published := "N/A" }] := by
  have h := (news_nonempty_bounded "TSLA" (fun _ => Option.none)
    (.error ()) (.error ())).2.2 (Or.inl rfl) (Or.inl rfl)
  simpa using h

end StockAnalyzer
